import Mathlib

/-!
Verification of the Devy Career Advisor conversation-orchestration layer.

This file gives a shallow embedding, in Lean 4, of the final-state service
layer of the repository (app/utils/validation.py, app/services/ai_service.py,
app/services/chat_service.py, app/schemas.py, app/constants.py) and proves
properties of that embedding.  Python values coming out of `json.loads` and
going into the JSON database columns are modelled by the inductive `PyVal`;
machine integers are modelled by `Int`/`Nat` (no overflow is possible in the
quantities involved); fallible operations return `Option`/`Except`.  The one
floating-point comparison in the source, `count > len(message) * 0.8`, is
modelled by the exact integer comparison `5 * count > 4 * len`; for every
integer `count` and `len ≤ 5000` the IEEE-754 double evaluation of the source
expression agrees with this integer comparison (for `len = 5k` the double
product `len * 0.8` rounds to exactly `4k`, since the error `4k·2⁻⁵⁴` is
strictly below half an ulp; for other `len` the exact product is at distance
≥ 0.2 from every integer, far beyond the rounding error).
-/

namespace Devy

/-- A Python value, as produced by `json.loads` and stored in JSON columns.
JSON numbers are modelled by integers: every number occurring in the
assessment payloads handled by the source is integral. -/
inductive PyVal where
  | null
  | bool (b : Bool)
  | int (n : Int)
  | str (s : String)
  | list (xs : List PyVal)
  | dict (kvs : List (String × PyVal))
deriving Repr

/-- Key lookup in a Python dict (modelled as an association list with unique
keys, matching Python dict semantics for the values the source builds). -/
def dictGet (kvs : List (String × PyVal)) (k : String) : Option PyVal :=
  (kvs.find? (fun p => p.1 == k)).map (fun p => p.2)

/-- Python truthiness of a value (`bool(v)`). -/
def pyTruthy : PyVal → Bool
  | .null => false
  | .bool b => b
  | .int n => n != 0
  | .str s => s != ""
  | .list xs => !xs.isEmpty
  | .dict kvs => !kvs.isEmpty

/-- Insert or overwrite a key in a Python dict, preserving insertion order
(Python `d[k] = v`). -/
def dictSet (kvs : List (String × PyVal)) (k : String) (v : PyVal) :
    List (String × PyVal) :=
  if (dictGet kvs k).isSome then
    kvs.map (fun p => if p.1 == k then (k, v) else p)
  else
    kvs ++ [(k, v)]

/-! ## app/constants.py -/

/-- `CAREER_PATHS` from app/constants.py. -/
def CAREER_PATHS : List String :=
  ["Frontend Developer", "Backend Developer", "Mobile Developer",
   "Data Scientist", "Machine Learning Engineer", "UI/UX Designer"]

/-- `DEFAULT_CONFIG["MIN_MESSAGE_LENGTH"]` from app/constants.py. -/
def MIN_MESSAGE_LENGTH : Nat := 1

/-- `DEFAULT_CONFIG["MAX_MESSAGE_LENGTH"]` from app/constants.py. -/
def MAX_MESSAGE_LENGTH : Nat := 5000

/-! ## app/utils/validation.py -/

/-- Python's `\s` character class / `str.strip()` whitespace, restricted to
ASCII (all inputs the claims mention are ASCII). -/
def pyIsSpace (c : Char) : Bool :=
  c == ' ' || c == '\t' || c == '\n' || c == '\r' ||
  c == Char.ofNat 11 || c == Char.ofNat 12

/-- `text.strip()` on a character list. -/
def pyStrip (cs : List Char) : List Char :=
  ((cs.dropWhile pyIsSpace).reverse.dropWhile pyIsSpace).reverse

/-- `re.sub(r"\s+", " ", ·)`: each maximal whitespace run becomes one space.
The flag records whether the previous character was part of a run. -/
def collapseWs : Bool → List Char → List Char
  | _, [] => []
  | prevSpace, c :: rest =>
    if pyIsSpace c then
      if prevSpace then collapseWs true rest
      else ' ' :: collapseWs true rest
    else c :: collapseWs false rest

/-- Recursion core of `removeTags`, structurally recursive on a fuel bound.
Every step consumes at least one character of the list, so the remaining
list is never longer than the fuel and the fuel-exhausted arm is only ever
reached on the empty list (which it maps to itself). -/
def removeTagsAux : Nat → List Char → List Char
  | 0, l => l
  | _ + 1, [] => []
  | fuel + 1, c :: rest =>
    if c == '<' then
      match rest.dropWhile (fun d => !(d == '>')) with
      | [] => c :: rest
      | _ :: after => removeTagsAux fuel after
    else c :: removeTagsAux fuel rest

/-- `re.sub(r"<[^>]*>", "", ·)`: remove every leftmost match.  From a `'<'`
the greedy `[^>]*` backtracks to the first subsequent `'>'`, so the match
spans through that `'>'` (`dropWhile (· ≠ '>')` is the suffix starting at
it); a `'<'` with no later `'>'` cannot start a match and is kept literally
(and no later match is possible either, since no `'>'` remains). -/
def removeTags (l : List Char) : List Char :=
  removeTagsAux l.length l

/-- `sanitize_string` from app/utils/validation.py: strip, collapse
whitespace runs to single spaces, truncate to `max_length` code points,
then remove `<[^>]*>` matches. -/
def sanitize_string (text : String) (max_length : Nat := 1000) : String :=
  let s := (collapseWs false (pyStrip text.data)).take max_length
  String.mk (removeTags s)

/-- Split a character list on a separator character (`str.split(sep)`):
always at least one group, empty groups preserved. -/
def splitOnChar (sep : Char) : List Char → List (List Char)
  | [] => [[]]
  | c :: rest =>
    if c == sep then [] :: splitOnChar sep rest
    else
      match splitOnChar sep rest with
      | g :: gs => (c :: g) :: gs
      | [] => [[c]]

/-- Hexadecimal digit under `re.IGNORECASE` (`[0-9a-f]`). -/
def isHexChar (c : Char) : Bool :=
  (48 ≤ c.toNat && c.toNat ≤ 57) ||
  (97 ≤ c.toNat && c.toNat ≤ 102) ||
  (65 ≤ c.toNat && c.toNat ≤ 70)

/-- The body of the session-id regex: five hyphen-separated hex groups of
lengths 8-4-4-4-12, matched against the whole string. -/
def uuidShaped (s : String) : Bool :=
  let groups := splitOnChar '-' s.data
  groups.map (fun g => g.length) == [8, 4, 4, 4, 12] &&
  groups.all (fun g => g.all isHexChar)

/-- `validate_session_id` from app/utils/validation.py.  The source anchors
the pattern with `$`, and in Python `$` (without `re.MULTILINE`) matches at
the end of the string *or just before a trailing newline*, so the compiled
regex also accepts the canonical form followed by one `'\n'`. -/
def validate_session_id (session_id : String) : Bool :=
  uuidShaped session_id ||
  (session_id.data.getLast? == some '\n' &&
   uuidShaped (String.mk session_id.data.dropLast))

/-- `validate_user_message` from app/utils/validation.py.  The result is
wrapped in `Option`: `none` models an uncaught `IndexError` from the
`message[0]` subscript (claim C10 proves it never occurs).  The spam check
`message.count(message[0]) > len(message) * 0.8` is the integer comparison
`5 * count > 4 * len` (see the header note on floating point). -/
def validate_user_message (message : String) : Option (Bool × Option String) :=
  if (pyStrip message.data).length < MIN_MESSAGE_LENGTH then
    some (false, some "Message cannot be empty")
  else if message.length > MAX_MESSAGE_LENGTH then
    some (false, some ("Message is too long (maximum " ++
      toString MAX_MESSAGE_LENGTH ++ " characters)"))
  else
    match message.data.head? with
    | none => none
    | some c =>
      if 5 * message.data.count c > 4 * message.length then
        some (false, some "Message appears to be spam")
      else
        some (true, none)

/-- `isinstance(score, int) and 0 <= score <= 100` check on a `match_score`
value.  In Python `bool` is a subclass of `int`, so `True`/`False` pass the
`isinstance` check (with values 1/0, both inside 0–100). -/
def scoreOk : PyVal → Bool
  | .int n => decide (0 ≤ n) && decide (n ≤ 100)
  | .bool _ => true
  | _ => false

/-- Required per-recommendation fields from `validate_assessment_data`. -/
def recRequiredFields : List String :=
  ["career_name", "match_score", "reasoning", "suggested_next_steps"]

/-- Errors contributed by one entry of `career_recommendations` (the loop
body of `validate_assessment_data`): a non-dict entry yields one error and
`continue`s; otherwise missing-field errors in field order, then the
`match_score` range/type error. -/
def recErrors (i : Nat) : PyVal → List String
  | .dict kvs =>
    ((recRequiredFields.filter (fun f => (dictGet kvs f).isNone)).map
      (fun f => "Recommendation " ++ toString i ++ " missing field: " ++ f)) ++
    (match dictGet kvs "match_score" with
     | some score =>
       if scoreOk score then []
       else ["Recommendation " ++ toString i ++ " match_score must be integer 0-100"]
     | none => [])
  | _ => ["Recommendation " ++ toString i ++ " must be a dictionary"]

/-- Required top-level keys from `validate_assessment_data`. -/
def requiredTopKeys : List String :=
  ["user_summary", "career_recommendations", "overall_assessment_notes"]

/-- `validate_assessment_data` from app/utils/validation.py.  Errors are
accumulated: missing top-level keys first, then the `user_summary` section,
then the `career_recommendations` section; the per-item loop runs only when
the list has exactly `len(CAREER_PATHS)` entries. -/
def validate_assessment_data (data : PyVal) : Bool × List String :=
  match data with
  | .dict kvs =>
    let keyErrs := (requiredTopKeys.filter (fun k => (dictGet kvs k).isNone)).map
      (fun k => "Missing required key: " ++ k)
    let summaryErrs :=
      match dictGet kvs "user_summary" with
      | some (.dict uskvs) =>
        match dictGet uskvs "name" with
        | some nv => if pyTruthy nv then [] else ["user_summary must contain a non-empty name"]
        | none => ["user_summary must contain a non-empty name"]
      | some _ => ["user_summary must be a dictionary"]
      | none => []
    let recsErrs :=
      match dictGet kvs "career_recommendations" with
      | some (.list items) =>
        if items.length != CAREER_PATHS.length then
          ["career_recommendations must contain exactly " ++
            toString CAREER_PATHS.length ++ " items"]
        else
          (items.enum.map (fun p => recErrors p.1 p.2)).flatten
      | some _ => ["career_recommendations must be a list"]
      | none => []
    let errors := keyErrs ++ summaryErrs ++ recsErrs
    (errors.isEmpty, errors)
  | _ => (false, ["Assessment data must be a dictionary"])

/-! ## app/schemas.py

The Pydantic v2 models and the validation `RecommendationResponse.model_validate`
performs on a parsed JSON value.  Modelled validation semantics: required
fields must be present with the annotated type; `Optional[...]` fields accept
the annotated type or `null` and default to `None` (`top_subjects` and
`suggested_next_steps` default to `[]` via `default_factory=list`); unknown
keys are ignored; `match_score` carries `ge=0, le=100`.  Pydantic's lax
numeric-string coercion is not exercised by any input considered here and is
not modelled. -/

/-- `UserSummary` from app/schemas.py. -/
structure UserSummary where
  name : String
  age : Option String
  education_level : Option String
  technical_knowledge : Option String
  top_subjects : Option (List String)
  subject_aspects : Option String
  interests_dreams : Option String
  other_notes : Option String
deriving Repr

/-- `CareerRecommendationItem` from app/schemas.py. -/
structure CareerRecommendationItem where
  career_name : String
  match_score : Int
  reasoning : String
  suggested_next_steps : List String
deriving Repr

/-- `RecommendationResponse` from app/schemas.py.  Note that
`career_recommendations : List CareerRecommendationItem` carries no length
constraint: validation accepts any number of items. -/
structure RecommendationResponse where
  user_summary : UserSummary
  career_recommendations : List CareerRecommendationItem
  overall_assessment_notes : String
deriving Repr

/-- Validation of an `Optional[str]` field: missing or `null` gives `None`,
a string gives the string, anything else fails. -/
def optStrField (kvs : List (String × PyVal)) (k : String) :
    Option (Option String) :=
  match dictGet kvs k with
  | none => some none
  | some .null => some none
  | some (.str s) => some (some s)
  | some _ => none

/-- A JSON array of strings, if the value is one. -/
def strList : PyVal → Option (List String)
  | .list xs => xs.mapM (fun v => match v with | .str s => some s | _ => none)
  | _ => none

/-- `UserSummary.model_validate`: `name` is a required string; the remaining
fields are optional (see `optStrField`); `top_subjects` additionally accepts
a string array and defaults to `[]` when missing. -/
def validateUserSummary (v : PyVal) : Option UserSummary :=
  match v with
  | .dict kvs => do
    let name ← match dictGet kvs "name" with
      | some (.str s) => some s
      | _ => none
    let age ← optStrField kvs "age"
    let edu ← optStrField kvs "education_level"
    let tech ← optStrField kvs "technical_knowledge"
    let subs ← match dictGet kvs "top_subjects" with
      | none => some (some [])
      | some .null => some none
      | some v => (strList v).map some
    let aspects ← optStrField kvs "subject_aspects"
    let dreams ← optStrField kvs "interests_dreams"
    let other ← optStrField kvs "other_notes"
    pure ⟨name, age, edu, tech, subs, aspects, dreams, other⟩
  | _ => none

/-- `CareerRecommendationItem.model_validate`: `career_name` and `reasoning`
are required strings, `match_score` a required integer within `ge=0, le=100`
(Pydantic v2 rejects booleans for `int` fields), `suggested_next_steps` a
string array defaulting to `[]`. -/
def validateRecItem (v : PyVal) : Option CareerRecommendationItem :=
  match v with
  | .dict kvs => do
    let cname ← match dictGet kvs "career_name" with
      | some (.str s) => some s
      | _ => none
    let score ← match dictGet kvs "match_score" with
      | some (.int n) => if 0 ≤ n ∧ n ≤ 100 then some n else none
      | _ => none
    let reasoning ← match dictGet kvs "reasoning" with
      | some (.str s) => some s
      | _ => none
    let steps ← match dictGet kvs "suggested_next_steps" with
      | none => some []
      | some v => strList v
    pure ⟨cname, score, reasoning, steps⟩
  | _ => none

/-- `RecommendationResponse.model_validate` on a parsed JSON value: the three
top-level keys are required; `career_recommendations` must be an array whose
every entry validates, of any length. -/
def validateRecommendation (v : PyVal) : Option RecommendationResponse :=
  match v with
  | .dict kvs => do
    let us ← match dictGet kvs "user_summary" with
      | some v => validateUserSummary v
      | none => none
    let recs ← match dictGet kvs "career_recommendations" with
      | some (.list items) => items.mapM validateRecItem
      | _ => none
    let notes ← match dictGet kvs "overall_assessment_notes" with
      | some (.str s) => some s
      | _ => none
    pure ⟨us, recs, notes⟩
  | _ => none

/-- `model_dump` of an optional string: `None` dumps to JSON `null`. -/
def dumpOptStr : Option String → PyVal
  | some s => .str s
  | none => .null

/-- `UserSummary.model_dump()`. -/
def dumpUserSummary (us : UserSummary) : PyVal :=
  .dict [("name", .str us.name), ("age", dumpOptStr us.age),
    ("education_level", dumpOptStr us.education_level),
    ("technical_knowledge", dumpOptStr us.technical_knowledge),
    ("top_subjects", match us.top_subjects with
      | some l => .list (l.map .str)
      | none => .null),
    ("subject_aspects", dumpOptStr us.subject_aspects),
    ("interests_dreams", dumpOptStr us.interests_dreams),
    ("other_notes", dumpOptStr us.other_notes)]

/-- `CareerRecommendationItem.model_dump()`. -/
def dumpRecItem (r : CareerRecommendationItem) : PyVal :=
  .dict [("career_name", .str r.career_name), ("match_score", .int r.match_score),
    ("reasoning", .str r.reasoning),
    ("suggested_next_steps", .list (r.suggested_next_steps.map .str))]

/-- `RecommendationResponse.model_dump()`. -/
def model_dump (r : RecommendationResponse) : PyVal :=
  .dict [("user_summary", dumpUserSummary r.user_summary),
    ("career_recommendations", .list (r.career_recommendations.map dumpRecItem)),
    ("overall_assessment_notes", .str r.overall_assessment_notes)]

/-! ## app/services/ai_service.py -/

/-- The outcome of the single upstream LLM call made per turn (the vendor
API is an external collaborator): either a response with text content, a
response carrying no choices/message (`Empty response from AI model`), or
one of the exception classes caught by `process_conversation`.  Exception
messages are `Option String` because `e.message` may be `None`
(`statusError`) or the attribute may be missing entirely (`apiError`). -/
inductive APIOutcome where
  | success (content : String)
  | emptyResponse
  | statusError (code : Int) (message : Option String)
  | apiError (message : Option String)
  | transportError
deriving Repr

/-- The fixed acknowledgement string returned when an assessment is
recognised. -/
def assessmentAck : String := "Here is your personalized career assessment:"

/-- The fallback string of the generic `except Exception` arm. -/
def genericFallback : String :=
  "I'm having trouble processing your request. Please try again in a moment."

/-- `AIService.process_conversation` from app/services/ai_service.py,
abstracted over `json.loads` (the `parse` argument: `none` models
`json.JSONDecodeError`) and the upstream call outcome.  An unavailable
client raises `AIServiceError` (the `Except.error` case); every caught
upstream exception is converted to an error string with
`is_assessment=False` and no payload; the `Empty response` `AIServiceError`
raised inside the `try` is caught by the generic `except Exception` arm. -/
def process_conversation (parse : String → Option PyVal) (available : Bool)
    (outcome : APIOutcome) :
    Except String (String × Bool × Option RecommendationResponse) :=
  if available = false then .error "AI service is not available"
  else
    match outcome with
    | .success content =>
      match parse content with
      | some v =>
        match validateRecommendation v with
        | some r => .ok (assessmentAck, true, some r)
        | none => .ok (content, false, none)
      | none => .ok (content, false, none)
    | .emptyResponse => .ok (genericFallback, false, none)
    | .statusError code msg =>
      .ok ("AI Service Error (" ++ toString code ++ "): " ++
        (match msg with
         | some s => if s = "" then "Status error from AI service." else s
         | none => "Status error from AI service."), false, none)
    | .apiError msg =>
      .ok ("AI Service Error: " ++
        (match msg with
         | some s => s
         | none => "An unexpected API error occurred."), false, none)
    | .transportError => .ok (genericFallback, false, none)

/-! ## app/models.py (the rows the services read and write) -/

/-- A `ChatMessage` row.  Rows are kept in timestamp (= insertion) order in
the containing list, so the `timestamp` column itself is left implicit. -/
structure ChatMessageRow where
  id : Nat
  session_id : String
  sender : String
  content : String
deriving Repr, DecidableEq

/-- A `Session` row.  The `context_data` JSON column is `NULL` or a JSON
object: every write in the source stores an object of the form
`{"user_profile": ...}`. -/
structure SessionRow where
  id : String
  user_id : Option Nat
  context_data : Option (List (String × PyVal))
deriving Repr

/-- A `User` row.  Auto-increment integer ids start at 1. -/
structure UserRow where
  id : Nat
  name : String
  age : Option Int
  education_level : Option String
  technical_knowledge : Option String
  top_subjects : Option (List String)
  subject_aspects : Option String
  interests_dreams : Option String
deriving Repr

/-- An `Assessment` row. -/
structure AssessmentRow where
  session_id : String
  user_id : Nat
  assessment_data : PyVal
deriving Repr

/-- The persistence store.  `messages` is ordered by timestamp (insertion
order); `nextMessageId`/`nextUserId` model the auto-increment counters. -/
structure DBState where
  sessions : List SessionRow
  users : List UserRow
  messages : List ChatMessageRow
  assessments : List AssessmentRow
  nextMessageId : Nat
  nextUserId : Nat
deriving Repr

/-- `AIService._format_conversation_history`: drop the just-stored message,
keep `user` messages as user turns, keep `devy` messages as assistant turns
unless their content parses as JSON (a previously delivered assessment). -/
def format_conversation_history (parse : String → Option PyVal)
    (chat_history : List ChatMessageRow) (current_message_id : Nat) :
    List (String × String) :=
  chat_history.filterMap (fun msg =>
    if msg.id = current_message_id then none
    else if msg.sender = "user" then some ("user", msg.content)
    else if msg.sender = "devy" then
      match parse msg.content with
      | some _ => none
      | none => some ("assistant", msg.content)
    else none)

/-! ## app/services/chat_service.py -/

/-- `ChatOutput` from app/schemas.py. -/
structure ChatOutput where
  devy_response : String
  session_id : String
  is_assessment_complete : Bool
  recommendation_payload : Option RecommendationResponse
deriving Repr

/-- Replace the (first) session row with the given id — the ORM mutates the
single object the query returned. -/
def updateSessions (l : List SessionRow) (sid : String)
    (f : SessionRow → SessionRow) : List SessionRow :=
  match l with
  | [] => []
  | t :: ts => if t.id == sid then f t :: ts else t :: updateSessions ts sid f

/-- Replace the (first) user row with the given id. -/
def updateUsers (l : List UserRow) (uid : Nat) (u' : UserRow) : List UserRow :=
  match l with
  | [] => []
  | t :: ts => if t.id == uid then u' :: ts else t :: updateUsers ts uid u'

/-- The context every session is created or repaired with:
`{"user_profile": {}}`. -/
def emptyProfileContext : List (String × PyVal) := [("user_profile", .dict [])]

/-- The source's repair condition:
`context_data is None or "user_profile" not in context_data`. -/
def contextNeedsInit : Option (List (String × PyVal)) → Bool
  | none => true
  | some kvs => (dictGet kvs "user_profile").isNone

/-- `ChatService.ensure_session_exists`: look the session up by id, create
it with an empty profile context if absent, then repair the context when it
is `NULL` or lacks the `user_profile` key. -/
def ensure_session_exists (db : DBState) (sid : String) :
    DBState × SessionRow :=
  match db.sessions.find? (fun s => s.id == sid) with
  | some s =>
    if contextNeedsInit s.context_data then
      let s' := { s with context_data := some emptyProfileContext }
      ({ db with sessions := updateSessions db.sessions sid (fun _ => s') }, s')
    else (db, s)
  | none =>
    let s : SessionRow := ⟨sid, none, some emptyProfileContext⟩
    ({ db with sessions := db.sessions ++ [s] }, s)

/-- The messages of one session, in timestamp order. -/
def sessionMessages (db : DBState) (sid : String) : List ChatMessageRow :=
  db.messages.filter (fun m => m.session_id == sid)

/-- `ChatService.get_chat_history` on the session's chronologically ordered
messages: order by timestamp descending, take `limit`, then reverse back to
chronological order. -/
def get_chat_history (msgs : List ChatMessageRow) (limit : Nat := 10) :
    List ChatMessageRow :=
  (msgs.reverse.take limit).reverse

/-- `ChatService.save_user_message`: sanitize, insert with sender `user`,
flush to obtain the id. -/
def save_user_message (db : DBState) (sid : String) (content : String) :
    DBState × ChatMessageRow :=
  let m : ChatMessageRow := ⟨db.nextMessageId, sid, "user", sanitize_string content 1000⟩
  ({ db with messages := db.messages ++ [m], nextMessageId := db.nextMessageId + 1 }, m)

/-- `ChatService.save_ai_message`: insert with sender `devy` (the id is
assigned by the store at commit). -/
def save_ai_message (db : DBState) (sid : String) (content : String) :
    DBState × ChatMessageRow :=
  let m : ChatMessageRow := ⟨db.nextMessageId, sid, "devy", content⟩
  ({ db with messages := db.messages ++ [m], nextMessageId := db.nextMessageId + 1 }, m)

/-- `int(age) if age and age.isdigit() else None`: the age string is parsed
only when non-empty and purely (ASCII) digits. -/
def parseAge : Option String → Option Int
  | some s =>
    match s.toNat? with
    | some n => some (Int.ofNat n)
    | none => none
  | none => none

/-- Overwrite a user row's profile fields from an assessment's
`user_summary` (last assessment wins). -/
def applySummary (u : UserRow) (us : UserSummary) : UserRow :=
  { u with
    age := parseAge us.age
    education_level := us.education_level
    technical_knowledge := us.technical_knowledge
    top_subjects := us.top_subjects
    subject_aspects := us.subject_aspects
    interests_dreams := us.interests_dreams }

/-- `ChatService._update_user_from_assessment`: resolve or create the user
by exact name match (empty name: skip and return `None`), overwrite the
profile fields, flush a new row to get its id, and link the session when the
id is truthy (`if db_user.id:` — Python integer truthiness). -/
def update_user_from_assessment (db : DBState) (rec : RecommendationResponse)
    (sid : String) : DBState × Option UserRow :=
  let us := rec.user_summary
  if us.name = "" then (db, none)
  else
    match db.users.find? (fun u => u.name == us.name) with
    | some u =>
      let u' := applySummary u us
      let db' := { db with users := updateUsers db.users u.id u' }
      let linkTo := fun (s : SessionRow) => { s with user_id := some u'.id }
      if u'.id ≠ 0 then
        ({ db' with sessions := updateSessions db'.sessions sid linkTo }, some u')
      else (db', some u')
    | none =>
      let u' := applySummary ⟨db.nextUserId, us.name, none, none, none, none, none, none⟩ us
      let db' := { db with users := db.users ++ [u'], nextUserId := db.nextUserId + 1 }
      let linkTo := fun (s : SessionRow) => { s with user_id := some u'.id }
      if u'.id ≠ 0 then
        ({ db' with sessions := updateSessions db'.sessions sid linkTo }, some u')
      else (db', some u')

/-- `ChatService._save_assessment`: re-validate the dumped payload (defence
in depth — failures are logged, not rejected) and insert the row
regardless of the validation outcome. -/
def save_assessment (db : DBState) (sid : String) (uid : Nat)
    (rec : RecommendationResponse) : DBState :=
  let _validated := validate_assessment_data (model_dump rec)
  { db with assessments := db.assessments ++ [⟨sid, uid, model_dump rec⟩] }

/-- `ChatService._update_session_profile`: when the linked user has a name
and the session's profile context lacks one, backfill it and flag the
context modified.  `Except` models the `AttributeError` a `NULL` context or
a non-dict `user_profile` value would raise (unreachable after
`ensure_session_exists` ran in the same turn). -/
def update_session_profile (sess : SessionRow) (user : UserRow) :
    Except String SessionRow :=
  if user.name ≠ "" then
    match sess.context_data with
    | none => .error "AttributeError"
    | some kvs =>
      match dictGet kvs "user_profile" with
      | some (.dict up) =>
        if pyTruthy ((dictGet up "name").getD .null) then pure sess
        else
          let ctx := dictSet kvs "user_profile" (.dict (dictSet up "name" (.str user.name)))
          pure { sess with context_data := some ctx }
      | some _ => .error "AttributeError"
      | none =>
        let ctx := dictSet kvs "user_profile" (.dict [("name", .str user.name)])
        pure { sess with context_data := some ctx }
  else pure sess

/-- The assessment-completion block of `process_message` (step 5): update or
create the user, and when a user with a truthy id resulted, save the
assessment and backfill the session profile context. -/
def handleAssessment (db : DBState) (sid : String)
    (rec : RecommendationResponse) : Except String DBState :=
  let r := update_user_from_assessment db rec sid
  match r.2 with
  | some u =>
    if u.id ≠ 0 then do
      let db2 := save_assessment r.1 sid u.id rec
      match db2.sessions.find? (fun s => s.id == sid) with
      | some sess => do
        let sess' ← update_session_profile sess u
        pure { db2 with sessions := updateSessions db2.sessions sid (fun _ => sess') }
      | none => pure db2
    else pure r.1
  | none => pure r.1

/-- The apology used when the AI client is not configured. -/
def aiUnavailableMsg : String :=
  "I'm having trouble connecting to my AI brain right now. Please try again in a moment."

/-- Step 5 of `process_message`: `if is_assessment_complete and
recommendation_payload:` run the assessment-completion block. -/
def assessIfComplete (sid : String) (db : DBState)
    (ai : String × Bool × Option RecommendationResponse) :
    Except String DBState :=
  match ai.2.2 with
  | some rec => if ai.2.1 = true then handleAssessment db sid rec else pure db
  | none => pure db

/-- An injected persistence/orchestration failure at program point `k`
(used to model "any exception raised during the turn"). -/
def chk (failAt : Option Nat) (k : Nat) : Except String Unit :=
  if failAt = some k then .error "injected persistence failure" else .ok ()

/-- The body of the `try` block of `ChatService.process_message`, threading
the staged (uncommitted) store through steps 1–6.  `failAt` injects an
exception at one of the seven program points between the steps. -/
def stagedTurn (parse : String → Option PyVal) (available : Bool)
    (outcome : APIOutcome) (failAt : Option Nat) (db : DBState)
    (sid : String) (user_message : String) :
    Except String (DBState × ChatOutput) := do
  chk failAt 0
  let r1 := ensure_session_exists db sid
  chk failAt 1
  let r2 := save_user_message r1.1 sid user_message
  chk failAt 2
  let _history := get_chat_history (sessionMessages r2.1 sid) 10
  chk failAt 3
  let ai : String × Bool × Option RecommendationResponse :=
    if available = false then (aiUnavailableMsg, false, none)
    else
      match process_conversation parse available outcome with
      | .ok r => r
      | .error e => (e, false, none)
  chk failAt 4
  let db3 ← assessIfComplete sid r2.1 ai
  chk failAt 5
  let r3 := save_ai_message db3 sid ai.1
  chk failAt 6
  pure (r3.1, ⟨ai.1, sid, ai.2.1, ai.2.2⟩)

/-- `ChatService.process_message`: run the staged turn; on success commit it
(the staged store becomes durable), on any exception roll the transaction
back (the durable store is the pre-turn one) and raise a single
`ChatServiceError`. -/
def process_message (parse : String → Option PyVal) (available : Bool)
    (outcome : APIOutcome) (failAt : Option Nat) (db : DBState)
    (sid : String) (user_message : String) :
    DBState × Except String ChatOutput :=
  match stagedTurn parse available outcome failAt db sid user_message with
  | .ok r => (r.1, .ok r.2)
  | .error e => (db, .error ("Failed to process message: " ++ e))

/-! ## Auxiliary definitions used to state the claims -/

/-- The upstream failures caught by `process_conversation`'s three `except`
arms (`openai.APIStatusError`, `openai.APIError`, generic `Exception`). -/
def isUpstreamError : APIOutcome → Bool
  | .statusError _ _ => true
  | .apiError _ => true
  | .transportError => true
  | _ => false

/-- The user-facing reply text each upstream-failure arm of
`process_conversation` produces. -/
def upstreamErrorText : APIOutcome → String
  | .statusError code m =>
    "AI Service Error (" ++ toString code ++ "): " ++
      (match m with
       | some s => if s = "" then "Status error from AI service." else s
       | none => "Status error from AI service.")
  | .apiError m =>
    "AI Service Error: " ++
      (match m with
       | some s => s
       | none => "An unexpected API error occurred.")
  | .transportError => genericFallback
  | _ => ""

/-- The history window as the claim describes it: the at most 10 most recent
messages of the session in chronological order, minus the excluded
identifier, user messages as user turns, assistant (`devy`) messages that
parse as JSON dropped, remaining assistant messages as assistant turns. -/
def claimedHistory (parse : String → Option PyVal)
    (msgs : List ChatMessageRow) (excludeId : Nat) : List (String × String) :=
  ((msgs.drop (msgs.length - 10)).filter (fun m =>
      m.id != excludeId &&
      (m.sender == "user" || (m.sender == "devy" && (parse m.content).isNone)))).map
    (fun m => ((if m.sender = "user" then "user" else "assistant"), m.content))

/-- A raw AI response text: syntactically valid JSON whose assessment has an
*empty* `career_recommendations` array. -/
def emptyRecsText : String :=
  "\x7b\"user_summary\": \x7b\"name\": \"Alex\"\x7d, \"career_recommendations\": [], \"overall_assessment_notes\": \"n\"\x7d"

/-- The Python value `json.loads(emptyRecsText)` produces. -/
def emptyRecsJson : PyVal :=
  .dict [("user_summary", .dict [("name", .str "Alex")]),
    ("career_recommendations", .list []),
    ("overall_assessment_notes", .str "n")]

/-- `json.loads` restricted to the one response text exercised by the C1
counterexample. -/
def emptyRecsParse : String → Option PyVal :=
  fun s => if s = emptyRecsText then some emptyRecsJson else none

/-- The validated payload of `emptyRecsJson`. -/
def emptyRecsPayload : RecommendationResponse :=
  ⟨⟨"Alex", none, none, none, some [], none, none, none⟩, [], "n"⟩

/-- Number of session rows carrying a given id. -/
def countSessions (l : List SessionRow) (sid : String) : Nat :=
  (l.filter (fun s => s.id == sid)).length

/-- An empty store (auto-increment counters at 1), used to instantiate
universally quantified theorems at a concrete input. -/
def emptyDb : DBState := ⟨[], [], [], [], 1, 1⟩

/-- A store holding one session with a well-formed profile context. -/
def oneSessionDb : DBState :=
  ⟨[⟨"token", none, some emptyProfileContext⟩], [], [], [], 1, 1⟩

/-- A recommendation entry carrying all four required fields and an
in-range score. -/
def okRecEntry : PyVal :=
  .dict [("career_name", .str "Backend Developer"), ("match_score", .int 70),
    ("reasoning", .str "r"), ("suggested_next_steps", .list [.str "s"])]

/-- A recommendation entry missing `reasoning` and carrying an out-of-range
score. -/
def badRecEntry : PyVal :=
  .dict [("career_name", .str "Frontend Developer"), ("match_score", .int 200),
    ("suggested_next_steps", .list [])]

/-- A payload violating four different rules at once: missing top-level key
(`overall_assessment_notes`), empty `user_summary.name`, a missing
per-recommendation field and an out-of-range `match_score` (list length is
exactly 6, so the per-item loop runs). -/
def multiViolationPayload : PyVal :=
  .dict [("user_summary", .dict [("name", .str "")]),
    ("career_recommendations",
      .list [badRecEntry, okRecEntry, okRecEntry, okRecEntry, okRecEntry, okRecEntry])]

/-- A payload whose `career_recommendations` has one entry, that entry
missing every per-recommendation field. -/
def shortRecsPayload : PyVal :=
  .dict [("user_summary", .dict [("name", .str "Alex")]),
    ("career_recommendations", .list [.dict []]),
    ("overall_assessment_notes", .str "ok")]

/-!
## Theorems

One theorem (plus, where needed, a witness or counterexample) per claim,
with shared helper lemmas in between.
-/

/-- C8 (counterexample): the spec's example output is wrong — the source
strips the HTML *tags* `<script>` and `</script>` but keeps the enclosed
text `x`, so the result is not `"a b"`. -/
theorem C8_sanitize_example_counterexample :
    sanitize_string "  a   b  <script>x</script> " 1000 ≠ "a b" := by decide

/-- C8 (amended): `sanitize` collapses consecutive whitespace to single
spaces, trims, truncates to `max_length` and strips anything resembling an
HTML tag, so on `"  a   b  <script>x</script> "` with `max_length` 1000 it
returns exactly `"a b x"` (the tag-enclosed text survives). -/
theorem C8_sanitize_example :
    sanitize_string "  a   b  <script>x</script> " 1000 = "a b x" := by decide

/-- C9 (code_bug): the session-token validator is anchored with `$`, which
in Python also matches just before a trailing newline, so a canonical UUID
followed by `'\n'` — not a canonical UUID textual form — is accepted,
contradicting the claim (and the source's own "valid UUID format"
docstring).  The canonical form itself is accepted case-insensitively and
other malformed strings are rejected. -/
theorem C9_trailing_newline_accepted :
    validate_session_id "aaaaaaaa-aaaa-aaaa-aaaa-aaaaaaaaaaaa\n" = true ∧
    uuidShaped "aaaaaaaa-aaaa-aaaa-aaaa-aaaaaaaaaaaa\n" = false ∧
    validate_session_id "AAAAaaaa-0000-1111-2222-333333333333" = true ∧
    validate_session_id "" = false ∧
    validate_session_id "aaaaaaaa-aaaa-aaaa-aaaa-aaaaaaaaaaa" = false ∧
    validate_session_id "gggggggg-aaaa-aaaa-aaaa-aaaaaaaaaaaa" = false := by
  decide

/-- C10: `validate_user_message` always returns a value — the `message[0]`
subscript (modelled by `head?`) is reached only after the minimum-length
check has guaranteed a non-empty string, so no `IndexError` is possible. -/
theorem C10_first_char_index_safe (s : String) :
    (validate_user_message s).isSome := by
  unfold validate_user_message
  split
  · rfl
  · rename_i hlen
    split
    · rfl
    · cases hd : s.data with
      | nil => exact absurd (by simp [pyStrip, hd, MIN_MESSAGE_LENGTH]) hlen
      | cons c cs =>
        simp only [List.head?_cons]
        split <;> rfl

/-- C7 (counterexample): the spam check counts only the *first* character of
the message.  In `"baaaaaaaaa"` the repeated character `'a'` makes up 90% of
the message — more than 80% — yet the message passes validation, because the
first character `'b'` occurs just once. -/
theorem C7_spam_claim_counterexample :
    validate_user_message "baaaaaaaaa" = some (true, none) ∧
    5 * ("baaaaaaaaa".data.count 'a') > 4 * "baaaaaaaaa".length ∧
    1 ≤ (pyStrip "baaaaaaaaa".data).length ∧ "baaaaaaaaa".length ≤ 5000 := by
  decide

set_option maxRecDepth 4000 in
/-- C7 (amended): for messages passing the emptiness and length checks,
`validate_user_message` reports spam exactly when the message's *first*
character makes up more than 80% of it; in particular 100 identical
characters are rejected as spam and `"Hello, I like coding"` is accepted. -/
theorem C7_spam_checks_first_char :
    (∀ (s : String) (c : Char), 1 ≤ (pyStrip s.data).length → s.length ≤ 5000 →
      s.data.head? = some c →
      (validate_user_message s = some (false, some "Message appears to be spam") ↔
        5 * s.data.count c > 4 * s.length)) ∧
    validate_user_message (String.mk (List.replicate 100 'a')) =
      some (false, some "Message appears to be spam") ∧
    validate_user_message "Hello, I like coding" = some (true, none) := by
  refine ⟨?_, by decide, by decide⟩
  intro s c h1 h2 hc
  have hlen : ¬ (pyStrip s.data).length < MIN_MESSAGE_LENGTH := by
    simp only [MIN_MESSAGE_LENGTH]; omega
  have hmax : ¬ s.length > MAX_MESSAGE_LENGTH := by
    simp only [MAX_MESSAGE_LENGTH]; omega
  unfold validate_user_message
  rw [if_neg hlen, if_neg hmax, hc]
  by_cases h3 : 5 * s.data.count c > 4 * s.length
  · simp [h3]
  · simp [h3]

/-- C7 witness: the amended biconditional applied at the concrete message
`"zzzzz"` (first character count 5, length 5: 25 > 20). -/
theorem C7_spam_checks_first_char_witness :
    validate_user_message "zzzzz" = some (false, some "Message appears to be spam") :=
  (C7_spam_checks_first_char.1 "zzzzz" 'z' (by decide) (by decide) (by decide)).mpr
    (by decide)

/-- C4 (counterexample): when `career_recommendations` does not have exactly
6 items, the per-recommendation checks are skipped entirely, so a payload
whose single recommendation entry is missing every required field reports
only the count violation — contradicting the claim that missing
per-recommendation fields are reported together with the count violation. -/
theorem C4_count_suppresses_item_errors :
    validate_assessment_data shortRecsPayload =
      (false, ["career_recommendations must contain exactly 6 items"]) ∧
    "Recommendation 0 missing field: career_name" ∉
      (validate_assessment_data shortRecsPayload).2 := by
  decide

/-- C4 (amended): `validate_assessment_data` accumulates violations instead
of stopping at the first (the ok flag is true exactly when the error list is
empty, and a payload with a missing top-level key, an empty
`user_summary.name`, a missing per-recommendation field and an out-of-range
`match_score` gets all four reported together) — but per-recommendation
violations are checked only when `career_recommendations` has exactly 6
items; otherwise only the count violation is reported for that section. -/
theorem C4_error_collection :
    (∀ d : PyVal,
      (validate_assessment_data d).1 = true ↔ (validate_assessment_data d).2 = []) ∧
    validate_assessment_data multiViolationPayload =
      (false, ["Missing required key: overall_assessment_notes",
        "user_summary must contain a non-empty name",
        "Recommendation 0 missing field: reasoning",
        "Recommendation 0 match_score must be integer 0-100"]) := by
  constructor
  · intro d
    cases d <;> simp [validate_assessment_data, List.isEmpty_iff]
  · decide

/-- C1 (counterexample): a syntactically valid assessment JSON whose
`career_recommendations` array is *empty* is accepted by the Gateway —
`is_assessment=True`, fixed acknowledgement, payload returned — although it
has fewer than 6 items and the §4.1 shape validator
(`validate_assessment_data`) rejects it.  The Pydantic schema the Gateway
actually validates against places no length constraint on the list. -/
theorem C1_empty_recommendations_accepted :
    process_conversation emptyRecsParse true (.success emptyRecsText) =
      .ok (assessmentAck, true, some emptyRecsPayload) ∧
    emptyRecsPayload.career_recommendations.length ≠ CAREER_PATHS.length ∧
    (validate_assessment_data emptyRecsJson).1 = false :=
  ⟨rfl, by decide, by decide⟩

/-- C1 (amended): for every raw AI response text, `process_conversation`
reports `is_assessment=True`, returns the fixed acknowledgement string and
the validated payload exactly when the text parses as JSON and validates
against the Pydantic `RecommendationResponse` schema (which does *not*
require `career_recommendations` to have exactly 6 items); when parsing or
schema validation fails it reports `is_assessment=False`, returns the raw
text verbatim and no payload. -/
theorem C1_assessment_classification :
    (∀ (parse : String → Option PyVal) (text : String) (v : PyVal)
        (r : RecommendationResponse),
      parse text = some v → validateRecommendation v = some r →
        process_conversation parse true (.success text) =
          .ok (assessmentAck, true, some r)) ∧
    (∀ (parse : String → Option PyVal) (text : String),
      (parse text = none ∨ ∃ v, parse text = some v ∧ validateRecommendation v = none) →
        process_conversation parse true (.success text) =
          .ok (text, false, none)) := by
  constructor
  · intro parse text v r hp hv
    simp [process_conversation, hp, hv]
  · intro parse text h
    rcases h with h | ⟨v, hp, hv⟩
    · simp [process_conversation, h]
    · simp [process_conversation, hp, hv]

/-- C1 witness: the success arm applied at the concrete parse and payload
of `emptyRecsText`. -/
theorem C1_assessment_classification_witness :
    process_conversation emptyRecsParse true (.success emptyRecsText) =
      .ok (assessmentAck, true, some emptyRecsPayload) :=
  C1_assessment_classification.1 emptyRecsParse emptyRecsText emptyRecsJson
    emptyRecsPayload rfl rfl

theorem get_chat_history_eq_drop (msgs : List ChatMessageRow) (n : Nat) :
    get_chat_history msgs n = msgs.drop (msgs.length - n) := by
  unfold get_chat_history
  rw [List.take_reverse, List.reverse_reverse]

theorem filterMap_eq_map_filter {α β : Type} (f : α → Option β) (p : α → Bool)
    (g : α → β) (h : ∀ a, f a = if p a then some (g a) else none)
    (l : List α) : l.filterMap f = (l.filter p).map g := by
  induction l with
  | nil => simp
  | cons a l ih =>
    by_cases hp : p a = true
    · simp [List.filterMap_cons, List.filter_cons, h a, hp, ih]
    · simp [List.filterMap_cons, List.filter_cons, h a, hp, ih]

theorem history_entry_cases (parse : String → Option PyVal) (excludeId : Nat)
    (m : ChatMessageRow) :
    (if m.id = excludeId then none
     else if m.sender = "user" then some (("user", m.content) : String × String)
     else if m.sender = "devy" then
       match parse m.content with
       | some _ => none
       | none => some ("assistant", m.content)
     else none) =
    (if (m.id != excludeId &&
          (m.sender == "user" || (m.sender == "devy" && (parse m.content).isNone)))
     then some ((if m.sender = "user" then "user" else "assistant"), m.content)
     else none) := by
  by_cases h1 : m.id = excludeId
  · simp [h1]
  · by_cases h2 : m.sender = "user"
    · simp [h1, h2]
    · by_cases h3 : m.sender = "devy"
      · cases hp : parse m.content <;> simp [h1, h2, h3, hp]
      · simp [h1, h2, h3]

/-- C3: the history handed to the AI is exactly as claimed — the at most 10
most recent messages of the session in chronological order, with the
just-stored message excluded, user messages kept as user turns, assistant
messages that parse as JSON dropped, and the remaining assistant messages
kept as assistant turns. -/
theorem C3_history_window (parse : String → Option PyVal)
    (msgs : List ChatMessageRow) (excludeId : Nat) :
    format_conversation_history parse (get_chat_history msgs 10) excludeId =
      claimedHistory parse msgs excludeId ∧
    (format_conversation_history parse (get_chat_history msgs 10) excludeId).length ≤ 10 := by
  have hwin : get_chat_history msgs 10 = msgs.drop (msgs.length - 10) :=
    get_chat_history_eq_drop msgs 10
  constructor
  · rw [hwin]
    unfold format_conversation_history claimedHistory
    exact filterMap_eq_map_filter _ _ _ (history_entry_cases parse excludeId) _
  · have h1 : (format_conversation_history parse (get_chat_history msgs 10)
        excludeId).length ≤ (get_chat_history msgs 10).length :=
      List.length_filterMap_le _ _
    have h2 : (get_chat_history msgs 10).length ≤ 10 := by
      rw [hwin, List.length_drop]
      omega
    omega

theorem find?_updateSessions (sid : String) (f : SessionRow → SessionRow)
    (hf : ∀ t : SessionRow, (t.id == sid) = true → ((f t).id == sid) = true) :
    ∀ (l : List SessionRow) (s : SessionRow),
      l.find? (fun t => t.id == sid) = some s →
      (updateSessions l sid f).find? (fun t => t.id == sid) = some (f s) := by
  intro l
  induction l with
  | nil => intro s h; simp [List.find?] at h
  | cons t ts ih =>
    intro s h
    by_cases ht : (t.id == sid) = true
    · simp only [List.find?, ht] at h
      injection h with h
      subst h
      unfold updateSessions
      rw [if_pos ht]
      simp only [List.find?, hf t ht]
    · have ht' : (t.id == sid) = false := by simpa using ht
      simp only [List.find?, ht'] at h
      unfold updateSessions
      rw [if_neg ht]
      simp only [List.find?, ht']
      exact ih s h

theorem countSessions_updateSessions (sid : String) (f : SessionRow → SessionRow)
    (hf : ∀ t : SessionRow, (t.id == sid) = true → ((f t).id == sid) = true) :
    ∀ l : List SessionRow,
      countSessions (updateSessions l sid f) sid = countSessions l sid := by
  intro l
  induction l with
  | nil => rfl
  | cons t ts ih =>
    unfold updateSessions
    by_cases ht : (t.id == sid) = true
    · rw [if_pos ht]
      unfold countSessions
      rw [List.filter_cons, List.filter_cons]
      simp only [ht, hf t ht, if_pos, List.length_cons]
    · have ht' : (t.id == sid) = false := by simpa using ht
      rw [if_neg ht]
      unfold countSessions
      rw [List.filter_cons, List.filter_cons]
      simp only [ht', Bool.false_eq_true, if_false]
      exact ih

theorem countSessions_pos (l : List SessionRow) (sid : String) (s : SessionRow)
    (h : l.find? (fun t => t.id == sid) = some s) : 1 ≤ countSessions l sid := by
  have hm : s ∈ l := List.mem_of_find?_eq_some h
  have hp := List.find?_some h
  have hmem : s ∈ l.filter (fun t => t.id == sid) := List.mem_filter.mpr ⟨hm, hp⟩
  exact List.length_pos.mpr (List.ne_nil_of_mem hmem)

theorem countSessions_none (l : List SessionRow) (sid : String)
    (h : l.find? (fun t => t.id == sid) = none) : countSessions l sid = 0 := by
  rw [List.find?_eq_none] at h
  unfold countSessions
  rw [List.filter_eq_nil_iff.mpr h]
  rfl

/-- C6: session resolution is idempotent — a second call on the same token
returns exactly the same store and row (hence no duplicate rows: after
resolution the number of rows with that id is `max`imum of the previous
count and 1); a found session whose context already holds a `user_profile`
key is returned with the store completely untouched; and the session
returned by resolution always has a context containing `user_profile`. -/
theorem C6_session_resolution_idempotent (db : DBState) (sid : String) :
    ensure_session_exists (ensure_session_exists db sid).1 sid =
      ensure_session_exists db sid ∧
    countSessions (ensure_session_exists db sid).1.sessions sid =
      max (countSessions db.sessions sid) 1 ∧
    (∀ s : SessionRow, db.sessions.find? (fun t => t.id == sid) = some s →
      contextNeedsInit s.context_data = false →
      ensure_session_exists db sid = (db, s)) ∧
    contextNeedsInit (ensure_session_exists db sid).2.context_data = false := by
  cases hfind : db.sessions.find? (fun t => t.id == sid) with
  | none =>
    have h1 : ensure_session_exists db sid = ({ db with sessions := db.sessions ++ [⟨sid, none, some emptyProfileContext⟩] }, (⟨sid, none, some emptyProfileContext⟩ : SessionRow)) := by
      unfold ensure_session_exists
      rw [hfind]
    refine ⟨?_, ?_, ?_, ?_⟩
    · rw [h1]
      unfold ensure_session_exists
      dsimp only
      simp [List.find?_append, hfind, List.find?, contextNeedsInit,
        emptyProfileContext, dictGet]
    · rw [h1]
      have h0 := countSessions_none db.sessions sid hfind
      dsimp only
      unfold countSessions at h0 ⊢
      rw [List.filter_append, List.length_append, h0]
      simp [List.filter]
    · intro s hs
      exact Option.noConfusion hs
    · rw [h1]
      rfl
  | some s =>
    have hp := List.find?_some hfind
    cases hinit : contextNeedsInit s.context_data with
    | true =>
      have h1 : ensure_session_exists db sid = ({ db with sessions := updateSessions db.sessions sid (fun _ => { s with context_data := some emptyProfileContext }) }, ({ s with context_data := some emptyProfileContext } : SessionRow)) := by
        unfold ensure_session_exists
        rw [hfind]
        simp [hinit]
      have hf : ∀ t : SessionRow, (t.id == sid) = true → ((({ s with context_data := some emptyProfileContext } : SessionRow)).id == sid) = true := fun _ _ => hp
      refine ⟨?_, ?_, ?_, ?_⟩
      · rw [h1]
        unfold ensure_session_exists
        dsimp only
        rw [find?_updateSessions sid (fun _ => { s with context_data := some emptyProfileContext }) hf db.sessions s hfind]
        simp [contextNeedsInit, emptyProfileContext, dictGet, List.find?]
      · rw [h1]
        dsimp only
        rw [countSessions_updateSessions sid (fun _ => { s with context_data := some emptyProfileContext }) hf db.sessions,
          Nat.max_eq_left (countSessions_pos db.sessions sid s hfind)]
      · intro s2 hs2 hneed
        injection hs2 with e
        subst e
        rw [hinit] at hneed
        exact Bool.noConfusion hneed
      · rw [h1]
        rfl
    | false =>
      have h1 : ensure_session_exists db sid = (db, s) := by
        unfold ensure_session_exists
        rw [hfind]
        simp [hinit]
      refine ⟨?_, ?_, ?_, ?_⟩
      · rw [h1]
        exact h1
      · rw [h1]
        exact (Nat.max_eq_left (countSessions_pos db.sessions sid s hfind)).symm
      · intro s2 hs2 _
        injection hs2 with e
        subst e
        exact h1
      · rw [h1]
        exact hinit

/-- C6 witness: the untouched-store conjunct applied at a concrete store
holding one well-formed session. -/
theorem C6_session_resolution_idempotent_witness :
    ensure_session_exists oneSessionDb "token" =
      (oneSessionDb, ⟨"token", none, some emptyProfileContext⟩) :=
  (C6_session_resolution_idempotent oneSessionDb "token").2.2.1
    ⟨"token", none, some emptyProfileContext⟩ rfl rfl

theorem exists_error_of_bind_const {α β : Type} (X : Except String α)
    (c : String) :
    ∃ e, Except.bind X (fun _ => (Except.error c : Except String β)) =
      Except.error e := by
  cases X with
  | error e => exact ⟨e, rfl⟩
  | ok _ => exact ⟨c, rfl⟩

theorem stagedTurn_injected_error (parse : String → Option PyVal)
    (available : Bool) (outcome : APIOutcome) (k : Nat) (hk : k ≤ 6)
    (db : DBState) (sid msg : String) :
    ∃ e, stagedTurn parse available outcome (some k) db sid msg = .error e := by
  interval_cases k <;>
    first
      | (simp only [stagedTurn, chk]
         simp only [Bind.bind, Except.bind]
         simp
         done)
      | (simp only [stagedTurn, chk]
         simp only [Bind.bind, Except.bind]
         simp
         exact exists_error_of_bind_const _ _)

/-- C2: if an exception is raised at any program point of the chat turn
before the final commit, `process_message` rolls the transaction back — the
durable store is exactly the pre-turn store, so no `ChatMessage`, `Session`,
`User` or `Assessment` mutation staged during the turn persists — and a
single orchestration-level `ChatServiceError` is raised to the caller. -/
theorem C2_rollback_on_failure (parse : String → Option PyVal)
    (available : Bool) (outcome : APIOutcome) (k : Nat) (db : DBState)
    (sid msg : String) (hk : k ≤ 6) :
    (process_message parse available outcome (some k) db sid msg).1 = db ∧
    ∃ e, (process_message parse available outcome (some k) db sid msg).2 =
      .error e := by
  obtain ⟨e, he⟩ := stagedTurn_injected_error parse available outcome k hk db sid msg
  unfold process_message
  rw [he]
  exact ⟨rfl, ⟨_, rfl⟩⟩

/-- C2 witness: a failure injected after the user message is staged (program
point 2) on the empty store rolls back to the empty store. -/
theorem C2_rollback_on_failure_witness :
    (process_message (fun _ => none) true .transportError (some 2) emptyDb
      "s" "hi").1 = emptyDb ∧
    ∃ e, (process_message (fun _ => none) true .transportError (some 2)
      emptyDb "s" "hi").2 = .error e :=
  C2_rollback_on_failure (fun _ => none) true .transportError 2 emptyDb
    "s" "hi" (by decide)

theorem ensure_preserves_messages (db : DBState) (sid : String) :
    (ensure_session_exists db sid).1.messages = db.messages ∧
    (ensure_session_exists db sid).1.nextMessageId = db.nextMessageId := by
  unfold ensure_session_exists
  cases db.sessions.find? (fun t => t.id == sid) with
  | none => exact ⟨rfl, rfl⟩
  | some s =>
    by_cases h : contextNeedsInit s.context_data = true
    · simp [h]
    · simp [h]

theorem stagedTurn_plain_reply (parse : String → Option PyVal)
    (o : APIOutcome) (E : String)
    (hE : process_conversation parse true o = .ok (E, false, none))
    (db : DBState) (sid msg : String) :
    stagedTurn parse true o none db sid msg =
      .ok ((save_ai_message
            (save_user_message (ensure_session_exists db sid).1 sid msg).1
            sid E).1,
        ⟨E, sid, false, none⟩) := by
  simp only [stagedTurn, chk, hE]
  simp only [Bind.bind, Except.bind]
  simp [assessIfComplete, pure, Except.pure]

/-- C5: every upstream AI API failure (status error, generic API error,
unexpected transport error) makes `process_conversation` return — not raise
— a user-facing error string with `is_assessment=False` and no payload, and
`process_message` still persists that string as the assistant (`devy`)
`ChatMessage` and commits the turn (the result is `ok`, and the durable
store holds the turn's user message followed by the error reply). -/
theorem C5_upstream_error_turn (parse : String → Option PyVal)
    (o : APIOutcome) (db : DBState) (sid msg : String)
    (h : isUpstreamError o = true) :
    process_conversation parse true o = .ok (upstreamErrorText o, false, none) ∧
    (process_message parse true o none db sid msg).2 =
      .ok ⟨upstreamErrorText o, sid, false, none⟩ ∧
    (process_message parse true o none db sid msg).1.messages =
      db.messages ++
        [⟨db.nextMessageId, sid, "user", sanitize_string msg 1000⟩,
         ⟨db.nextMessageId + 1, sid, "devy", upstreamErrorText o⟩] := by
  have hmsg := (ensure_preserves_messages db sid).1
  have hnext := (ensure_preserves_messages db sid).2
  cases o with
  | success c => simp [isUpstreamError] at h
  | emptyResponse => simp [isUpstreamError] at h
  | statusError code m =>
    refine ⟨rfl, ?_, ?_⟩
    · unfold process_message
      rw [stagedTurn_plain_reply parse (.statusError code m)
        (upstreamErrorText (.statusError code m)) rfl db sid msg]
    · unfold process_message
      rw [stagedTurn_plain_reply parse (.statusError code m)
        (upstreamErrorText (.statusError code m)) rfl db sid msg]
      simp [save_ai_message, save_user_message, hmsg, hnext]
  | apiError m =>
    refine ⟨rfl, ?_, ?_⟩
    · unfold process_message
      rw [stagedTurn_plain_reply parse (.apiError m)
        (upstreamErrorText (.apiError m)) rfl db sid msg]
    · unfold process_message
      rw [stagedTurn_plain_reply parse (.apiError m)
        (upstreamErrorText (.apiError m)) rfl db sid msg]
      simp [save_ai_message, save_user_message, hmsg, hnext]
  | transportError =>
    refine ⟨rfl, ?_, ?_⟩
    · unfold process_message
      rw [stagedTurn_plain_reply parse .transportError
        (upstreamErrorText .transportError) rfl db sid msg]
    · unfold process_message
      rw [stagedTurn_plain_reply parse .transportError
        (upstreamErrorText .transportError) rfl db sid msg]
      simp [save_ai_message, save_user_message, hmsg, hnext]

/-- C5 witness: a transport failure on the empty store still yields an `ok`
turn whose stored assistant message is the fallback error string. -/
theorem C5_upstream_error_turn_witness :
    process_conversation (fun _ => none) true .transportError =
      .ok (upstreamErrorText .transportError, false, none) ∧
    (process_message (fun _ => none) true .transportError none emptyDb
      "s" "hello").2 =
      .ok ⟨upstreamErrorText .transportError, "s", false, none⟩ ∧
    (process_message (fun _ => none) true .transportError none emptyDb
      "s" "hello").1.messages =
      emptyDb.messages ++
        [⟨emptyDb.nextMessageId, "s", "user", sanitize_string "hello" 1000⟩,
         ⟨emptyDb.nextMessageId + 1, "s", "devy",
          upstreamErrorText .transportError⟩] :=
  C5_upstream_error_turn (fun _ => none) .transportError emptyDb "s" "hello" rfl

end Devy
